import Mathlib

/-!
Shallow embedding of the camply Recreation.gov search core
(`camply/search/search_recreationdotgov.py` and
`camply/config/search_config.py`) together with proofs of the testable
properties of the spec.

Python strings become `String`, optional values become `Option`,
numeric lengths become `Int` (the code only compares lengths with `>=`),
pandas frames become lists of rows, and Python exceptions become an
explicit `Except PyError` result.  External collaborators (the HTTP
client, the date consolidation primitive, ...) are passed in as plain
functions inside an `Env` record.
-/

namespace Camply

/-- Python exceptions that the embedded code can raise. -/
inductive PyError where
  | keyError (key : String)
  | indexError
  | notImplementedError (msg : String)
  | searchError (msg : String)
  | runtimeError (msg : String)
  | attributeError (msg : String)
deriving DecidableEq, Repr

/-! ## `camply/config/search_config.py` -/

/-- Embeds `EquipmentOptions.__all_accepted_equipment__ = [tent, rv, trailer, vehicle]`
(the `str`-valued enum members; note `other` is absent). -/
def allAcceptedEquipment : List String := ["tent", "rv", "trailer", "vehicle"]

/-- Embeds `EquipmentConfig.EQUIPMENT_MAPPING`, an ordered mapping from canonical
category to the raw provider equipment-description strings. -/
def EQUIPMENT_MAPPING : List (String × List String) :=
  [ ("tent", ["Tent", "Large Tent Over 9X12", "Large Tent Over 9X12`", "Small Tent"]),
    ("rv", ["RV", "Pop up", "Caravan/Camper Van", "RV/Motorhome", "Fifth Wheel"]),
    ("trailer", ["Trailer"]),
    ("vehicle", ["Pickup Camper", "Vehicle", "Car"]),
    ("other", ["Hammock", "Horse", "Boat", ""]) ]

/-- Embeds `EquipmentConfig.EQUIPMENT_REVERSE_MAPPING` as an association list:
every raw string paired with its category.  The Python loop inserts the
keys in order into a dict; all raw strings are distinct, so first-match
lookup agrees with the dict. -/
def EQUIPMENT_REVERSE_MAPPING : List (String × String) :=
  EQUIPMENT_MAPPING.flatMap fun kv => kv.2.map fun raw => (raw, kv.1)

/-- Dict subscript `EQUIPMENT_REVERSE_MAPPING[x]`: `none` models a `KeyError`. -/
def equipmentReverseLookup (raw : String) : Option String :=
  (EQUIPMENT_REVERSE_MAPPING.find? fun kv => kv.1 == raw).map fun kv => kv.2

/-- Python `str(n).zfill(2)`: pad on the left with zeros to width 2. -/
def zfill2 (s : String) : String :=
  if s.length < 2 then String.mk (List.replicate (2 - s.length) '0') ++ s else s

/-- Embeds `EquipmentConfig.TIMESTAMP_EQUIPMENT`: `str(hour).zfill(2) + str(minute).zfill(2)`
for every `hour in range(24)` and `minute in range(60)`. -/
def TIMESTAMP_EQUIPMENT : List String :=
  (List.range 24).flatMap fun hour =>
    (List.range 60).map fun minute => zfill2 (Nat.repr hour) ++ zfill2 (Nat.repr minute)

/-- Spec-side characterization (refinement target, from the words of the spec, not
from the code): "an exact 4-character zero-padded HHMM string for a valid
24-hour time (0000-2359)": four digit characters whose first pair reads as an
hour below 24 and second pair as a minute below 60. -/
def specValidHHMM (s : String) : Bool :=
  match s.data with
  | [a, b, c, d] =>
    a.isDigit && b.isDigit && c.isDigit && d.isDigit
      && ((a.toNat - 48) * 10 + (b.toNat - 48) < 24)
      && ((c.toNat - 48) * 10 + (d.toNat - 48) < 60)
  | _ => false

/-! ## Equipment request validation
(`SearchRecreationDotGovBase._get_searchable_equipment`) -/

/-- Which value the class attribute `accepted_equipment` holds: the default
subclasses keep `EquipmentOptions.__all_accepted_equipment__` (category mode),
the daily ticket / timed-entry subclasses override it with
`EquipmentConfig.TIMESTAMP_EQUIPMENT` (timestamp mode).  These are the only
two values occurring in the source. -/
inductive Mode where
  | category
  | timestamp
deriving DecidableEq, Repr

/-- The `cls.accepted_equipment` class attribute for each mode. -/
def acceptedEquipment : Mode → List String
  | .category => allAcceptedEquipment
  | .timestamp => TIMESTAMP_EQUIPMENT

/-- Python `str.lower()` restricted to its ASCII behaviour (all equipment
names in the vocabularies are ASCII). -/
def pyLower (s : String) : String := String.mk (s.data.map Char.toLower)

/-- One equipment request entry: `(equipment_name, equipment_length)`. -/
abbrev EquipmentRequest := String × Option Int

/-- The branch chain inside the loop of `_get_searchable_equipment`: `true` iff the
entry is appended to `final_equipment` (i.e. neither warning branch fires). -/
def keptEquipment (mode : Mode) (name : String) : Bool :=
  if acceptedEquipment mode == allAcceptedEquipment
      && !((acceptedEquipment mode).contains (pyLower name)) then false
  else if acceptedEquipment mode == TIMESTAMP_EQUIPMENT
      && !(TIMESTAMP_EQUIPMENT.contains name) then false
  else true

/-- Embeds `SearchRecreationDotGovBase._get_searchable_equipment`.  A `none` input
models `equipment=None` (not a list/tuple): `final_equipment` stays `None`.
Otherwise each entry is kept exactly when no warning branch fires, in input
order, with its length untouched; logging is dropped. -/
def getSearchableEquipment (mode : Mode) (equipment : Option (List EquipmentRequest)) :
    Option (List EquipmentRequest) :=
  match equipment with
  | none => none
  | some eqs => some (eqs.filter fun e => keptEquipment mode e.1)

/-! ## Campsite rows and the equipment filter
(`SearchRecreationDotGovBase.filter_campsites_to_equipment`) -/

/-- One entry of the `permitted_equipment` list of a row.  A `none` name models a
missing (NaN) raw equipment name, a `none` length a missing (NaN) max length. -/
structure EquipmentEntry where
  equipment_name : Option String
  max_length : Option Int
deriving DecidableEq, Repr

/-- One row of the consolidated campsite DataFrame; only the columns the
equipment filter touches are modelled, remaining columns ride along with the
row identity. -/
structure ConsolidatedRow where
  campsite_id : Int
  permitted_equipment : List EquipmentEntry
deriving DecidableEq, Repr

/-- One row of `joined_data`: the exploded `(campsite_id, permitted_equipment)`
frame with the two expanded columns. -/
structure VirtualEntry where
  campsite_id : Int
  equipment_name : Option String
  max_length : Option Int
deriving DecidableEq, Repr

/-- Embeds `campsites[["campsite_id", "permitted_equipment"]].explode("permitted_equipment")`
on one row: an empty list explodes to a single NaN entry, otherwise one
virtual entry per permitted-equipment item. -/
def explodeRow (r : ConsolidatedRow) : List VirtualEntry :=
  match r.permitted_equipment with
  | [] => [⟨r.campsite_id, none, none⟩]
  | es => es.map fun e => ⟨r.campsite_id, e.equipment_name, e.max_length⟩

/-- The `equipment_name_normalized` column for one virtual entry.  Category
mode is `joined_data["equipment_name"].fillna("").apply(lambda x:
EquipmentConfig.EQUIPMENT_REVERSE_MAPPING[x])`: a missing name is filled with
`""` and the dict subscript raises `KeyError` on an unmapped raw string.
Timestamp mode copies `equipment_name` unchanged (a NaN stays NaN and later
matches nothing in `isin`). -/
def normalizeEntry (mode : Mode) (v : VirtualEntry) :
    Except PyError (VirtualEntry × Option String) :=
  match mode with
  | .category =>
    let raw := v.equipment_name.getD ""
    match equipmentReverseLookup raw with
    | some category => .ok (v, some category)
    | none => .error (.keyError raw)
  | .timestamp => .ok (v, v.equipment_name)

/-- Embeds `pd.Series.unique()`: first occurrence of each value, in order. -/
def uniqueKeepFirst (xs : List Int) : List Int :=
  xs.foldl (fun acc x => if acc.contains x then acc else acc ++ [x]) []

/-- Embeds `SearchRecreationDotGovBase.filter_campsites_to_equipment`, with
`self.equipment` and the mode passed explicitly.  Mirrors the pandas steps:
early return on a missing/empty request or empty frame; explode and expand
`permitted_equipment`; normalize; keep virtual entries whose normalized name
is `isin` the requested lowered names; per requested pair restrict to equal
normalized name and (when a length is given) `max_length >= length` (a NaN
max length fails the comparison); union the matched campsite ids; return the
original rows whose `campsite_id` is in the union, in original order. -/
def filterCampsitesToEquipment (mode : Mode) (equipment : Option (List EquipmentRequest))
    (campsites : List ConsolidatedRow) : Except PyError (List ConsolidatedRow) :=
  match equipment with
  | none => .ok campsites
  | some eqs =>
    if eqs.length = 0 ∨ campsites.length = 0 then .ok campsites
    else
      match (campsites.flatMap explodeRow).mapM (normalizeEntry mode) with
      | .error e => .error e
      | .ok joined =>
        let equipmentTypes := eqs.map fun item => pyLower item.1
        let matchingEquipment := joined.filter fun je =>
          match je.2 with
          | some n => equipmentTypes.contains n
          | none => false
        let matchingIds := eqs.foldl (fun acc item =>
          let matchingName := matchingEquipment.filter fun je => je.2 == some (pyLower item.1)
          let matchingData :=
            match item.2 with
            | none => matchingName
            | some len => matchingName.filter fun je =>
                match je.1.max_length with
                | some ml => len ≤ ml
                | none => false
          acc ++ uniqueKeepFirst (matchingData.map fun je => je.1.campsite_id)) []
        .ok (campsites.filter fun r => matchingIds.contains r.campsite_id)

/-- Length condition of the spec on a single permitted-equipment entry: a
length-less request accepts any length, a numeric request needs a listed
max length numerically at least the requested one. -/
def lenOk (optLen : Option Int) (ml : Option Int) : Bool :=
  match optLen with
  | none => true
  | some len =>
    match ml with
    | some m => len ≤ m
    | none => false

/-- Row-local matching condition of the spec for one requested category: the
raw name of the entry normalizes to the requested (lowered) category and the
length condition holds. -/
def entryMatches (name : String) (optLen : Option Int) (e : EquipmentEntry) : Bool :=
  (equipmentReverseLookup (e.equipment_name.getD "") == some (pyLower name)) &&
    lenOk optLen e.max_length

/-- Row-local matching condition of the spec: the permitted-equipment
list contains at least one matching entry. -/
def rowMatches (name : String) (optLen : Option Int) (r : ConsolidatedRow) : Bool :=
  r.permitted_equipment.any (entryMatches name optLen)

/-! ## Campground resolution
(`SearchRecreationDotGovBase._get_searchable_campgrounds`) -/

/-- Embeds `camply.containers.CampgroundFacility` (modelled with the fields the
search core reads; the container module itself is outside the excerpt). -/
structure CampgroundFacility where
  facility_id : Int
  facility_name : String
  recreation_area : String
  recreation_area_id : Int
deriving DecidableEq, Repr

/-- The Python test `x not in [(), [], None]` on an optional id list. -/
def providedIds (ids : Option (List Int)) : Bool :=
  match ids with
  | none => false
  | some l => !l.isEmpty

/-- Embeds `list(set(searchable_campgrounds))`: deduplication by facility value.
The real `set` loses ordering; order is unspecified, so one canonical
order (first occurrences) is used. -/
def dedupFacilities (fs : List CampgroundFacility) : List CampgroundFacility :=
  fs.eraseDups

/-- Embeds `SearchRecreationDotGovBase._get_searchable_campgrounds`.  The three
lookup capabilities (`_get_campgrounds_by_campsite_id`,
`_get_campgrounds_by_campground_id`,
`_get_campgrounds_by_recreation_area_id`) call the external facility finder,
so their results are parameters. -/
def getSearchableCampgrounds (campsites campgroundObject recreationAreaId : Option (List Int))
    (lookupByCampsiteId lookupByCampgroundId lookupByRecreationAreaId : List CampgroundFacility) :
    Except PyError (List CampgroundFacility) :=
  if providedIds campsites then .ok (dedupFacilities lookupByCampsiteId)
  else if providedIds campgroundObject then .ok (dedupFacilities lookupByCampgroundId)
  else if providedIds recreationAreaId then .ok (dedupFacilities lookupByRecreationAreaId)
  else .error (.runtimeError "You must provide a Campground or Recreation Area ID")

/-! ## Availability aggregation
(`SearchRecreationDotGovBase.get_all_campsites`) -/

/-- A calendar month of the search window (opaque token). -/
abbrev Month := Nat

/-- The campsite-metadata table returned by
`get_internal_campsite_metadata` (opaque token). -/
abbrev Metadata := Nat

/-- A raw provider payload returned by `get_recdotgov_data` (opaque token). -/
abbrev Payload := Nat

/-- Embeds `camply.containers.AvailableCampsite` (modelled with the one field this
core reads: `campsite_id`; the other fields ride along opaquely). -/
structure AvailableCampsite where
  campsite_id : Int
deriving DecidableEq, Repr

/-- Modelled from the spec: the external collaborator capabilities of section
6 and the base-class primitives absent from the excerpt
(`campsites_to_df`, `_filter_date_overlap`, `_consolidate_campsites`,
`df_to_campsites`), passed as plain functions. -/
structure Env where
  getInternalCampsiteMetadata : List Int → Metadata
  getRecdotgovData : Int → Month → Payload
  processCampsiteAvailability : Payload → CampgroundFacility → Month → Metadata → List AvailableCampsite
  campsitesToDf : List AvailableCampsite → List ConsolidatedRow
  filterDateOverlap : List ConsolidatedRow → List ConsolidatedRow
  consolidateCampsites : List ConsolidatedRow → Nat → List ConsolidatedRow
  dfToCampsites : List ConsolidatedRow → List AvailableCampsite

/-- The mutable search-object attributes `get_all_campsites` reads. -/
structure SearchState where
  campgrounds : List CampgroundFacility
  searchMonths : List Month
  campsites : Option (List Int)
  equipment : Option (List EquipmentRequest)
  mode : Mode
  nights : Nat
  campsite_metadata : Option Metadata
deriving Repr

/-- Counts of the side effects the claims talk about: `sleep(...)` calls and
`get_internal_campsite_metadata` calls. -/
structure Effects where
  sleeps : Nat
  metadataFetches : Nat
deriving DecidableEq, Repr

/-- What one `get_all_campsites` call produces: the updated search object
state, the observed side effects, and the returned campsites (or the
propagated exception). -/
structure SearchOutcome where
  state : SearchState
  effects : Effects
  result : Except PyError (List AvailableCampsite)

/-- The body of the inner `for month in self.search_months` loop: fetch,
convert, optionally restrict to the campsite-id allowlist
(`if self.campsites not in [None, []]`), accumulate, and - still inside the
month loop - sleep when this is not the last campground
(`if index + 1 < len(self.campgrounds)`).  The accumulator carries
`found_campsites` and the sleep count. -/
def monthStep (env : Env) (st : SearchState) (metadata : Metadata)
    (campground : CampgroundFacility) (index : Nat)
    (acc : List AvailableCampsite × Nat) (month : Month) :
    List AvailableCampsite × Nat :=
  let availabilities := env.getRecdotgovData campground.facility_id month
  let campsites := env.processCampsiteAvailability availabilities campground month metadata
  let campsites :=
    match st.campsites with
    | none => campsites
    | some [] => campsites
    | some allow => campsites.filter fun c => allow.contains c.campsite_id
  let acc2 := (acc.1 ++ campsites, acc.2)
  if index + 1 < st.campgrounds.length then (acc2.1, acc2.2 + 1) else acc2

/-- One iteration of `for index, campground in enumerate(self.campgrounds)`. -/
def facilityStep (env : Env) (st : SearchState) (metadata : Metadata)
    (acc : List AvailableCampsite × Nat) (p : Nat × CampgroundFacility) :
    List AvailableCampsite × Nat :=
  st.searchMonths.foldl (monthStep env st metadata p.2 p.1) acc

/-- Embeds `SearchRecreationDotGovBase.get_all_campsites`.  Raises `SearchError`
when no campgrounds resolved; populates `self.campsite_metadata` only when it
is still `None`; runs the nested polling loop; then pushes the accumulator
through the dataframe pipeline ending in `filter_campsites_to_equipment`.
State mutation and effects survive a late exception, as in Python. -/
def getAllCampsites (env : Env) (st : SearchState) : SearchOutcome :=
  if st.campgrounds.length = 0 then
    ⟨st, ⟨0, 0⟩, .error (.searchError "No campgrounds found to search")⟩
  else
    let fetched :=
      match st.campsite_metadata with
      | none => (env.getInternalCampsiteMetadata (st.campgrounds.map CampgroundFacility.facility_id), 1)
      | some m => (m, 0)
    let metadata := fetched.1
    let stAfter := { st with campsite_metadata := some metadata }
    let looped := (st.campgrounds.enum).foldl (facilityStep env st metadata) ([], 0)
    let campsiteDf := env.campsitesToDf looped.1
    let campsiteDfValidated := env.filterDateOverlap campsiteDf
    let compiledCampsiteDf := env.consolidateCampsites campsiteDfValidated st.nights
    match filterCampsitesToEquipment st.mode st.equipment compiledCampsiteDf with
    | .error e => ⟨stAfter, ⟨looped.2, fetched.2⟩, .error e⟩
    | .ok filtered => ⟨stAfter, ⟨looped.2, fetched.2⟩, .ok (env.dfToCampsites filtered)⟩

/-! ## Unit listing
(`SearchRecreationDotGovBase._get_listable_campsites`) -/

/-- Embeds `camply.containers.api_responses.RecDotGovCampsite` (modelled with the
fields the lister reads). -/
structure RecDotGovCampsite where
  campsite_id : Int
  asset_id : Int
  name : String
deriving DecidableEq, Repr

/-- Embeds `camply.containers.api_responses.RecDotGovSearchResult` (modelled with
the fields the lister reads). -/
structure RecDotGovSearchResult where
  entity_id : Int
  parent_id : Int
  name : String
deriving DecidableEq, Repr

/-- Embeds `camply.containers.data_containers.ListedCampsite` (modelled from the
ListedUnit of the spec: `{id, facility_id, name}`). -/
structure ListedCampsite where
  id : Int
  facility_id : Int
  name : String
deriving DecidableEq, Repr

/-- A runtime element of the list handed to `_get_listable_campsites`: one of
the two annotated types, or any other object (the `NotImplementedError`
branch exists for those). -/
inductive CampsiteResponse where
  | campsite (c : RecDotGovCampsite)
  | searchResult (r : RecDotGovSearchResult)
  | otherShape
deriving DecidableEq, Repr

/-- Attribute access used by the shape-A comprehension
(`item.campsite_id`, `item.asset_id`, `item.name`); on any other object
those attributes are absent and Python raises `AttributeError`. -/
def shapeAFields : CampsiteResponse → Except PyError ListedCampsite
  | .campsite c => .ok ⟨c.campsite_id, c.asset_id, c.name⟩
  | _ => .error (.attributeError "object has no attribute campsite_id")

/-- Attribute access used by the shape-B comprehension
(`item.entity_id`, `item.parent_id`, `item.name`). -/
def shapeBFields : CampsiteResponse → Except PyError ListedCampsite
  | .searchResult r => .ok ⟨r.entity_id, r.parent_id, r.name⟩
  | _ => .error (.attributeError "object has no attribute entity_id")

/-- Embeds `SearchRecreationDotGovBase._get_listable_campsites`.  The dispatch
inspects `campsites[0]` (an `IndexError` on an empty list) and then converts
every element with the comprehension chosen for the first element. -/
def getListableCampsites (campsites : List CampsiteResponse) :
    Except PyError (List ListedCampsite) :=
  match campsites with
  | [] => .error .indexError
  | first :: _ =>
    match first with
    | .campsite _ => campsites.mapM shapeAFields
    | .searchResult _ => campsites.mapM shapeBFields
    | .otherShape => .error (.notImplementedError "Cannot get listable campsites from type")

/-! ## Theorems -/

/-- Claim C6: `filter_campsites_to_equipment` is the identity whenever the
validated equipment request is `None` or empty, or the row set is empty: the
rows come back unchanged, in content and order. -/
theorem filter_empty_request_is_identity :
    ∀ (mode : Mode) (equipment : Option (List EquipmentRequest)) (rows : List ConsolidatedRow),
      filterCampsitesToEquipment mode none rows = .ok rows ∧
      filterCampsitesToEquipment mode (some []) rows = .ok rows ∧
      filterCampsitesToEquipment mode equipment [] = .ok [] := by
  intro mode equipment rows
  refine ⟨rfl, rfl, ?_⟩
  cases equipment with
  | none => rfl
  | some eqs => simp [filterCampsitesToEquipment]

/-- Claim C5: campground resolution precedence is fixed and mutually
exclusive: non-empty campsite ids always win, campground ids are used only
when campsite ids are empty, recreation-area ids only when both are empty. -/
theorem campground_resolution_precedence :
    ∀ (cs cg ra : Option (List Int))
      (lookupCs lookupCg lookupRa : List CampgroundFacility),
      (providedIds cs = true →
        getSearchableCampgrounds cs cg ra lookupCs lookupCg lookupRa =
          .ok (dedupFacilities lookupCs)) ∧
      (providedIds cs = false → providedIds cg = true →
        getSearchableCampgrounds cs cg ra lookupCs lookupCg lookupRa =
          .ok (dedupFacilities lookupCg)) ∧
      (providedIds cs = false → providedIds cg = false → providedIds ra = true →
        getSearchableCampgrounds cs cg ra lookupCs lookupCg lookupRa =
          .ok (dedupFacilities lookupRa)) := by
  intro cs cg ra lookupCs lookupCg lookupRa
  refine ⟨?_, ?_, ?_⟩
  · intro h1
    simp [getSearchableCampgrounds, h1]
  · intro h1 h2
    simp [getSearchableCampgrounds, h1, h2]
  · intro h1 h2 h3
    simp [getSearchableCampgrounds, h1, h2, h3]

/-- Witness for claim C5: with campsite ids, campground ids and recreation
area ids all supplied, only the campsite-id lookup result is returned. -/
theorem campground_resolution_precedence_witness :
    getSearchableCampgrounds (some [10]) (some [20]) (some [30])
      [⟨1, "A", "RA", 5⟩] [⟨2, "B", "RA", 5⟩] [⟨3, "C", "RA", 5⟩] =
      .ok [⟨1, "A", "RA", 5⟩] :=
  (campground_resolution_precedence (some [10]) (some [20]) (some [30])
    [⟨1, "A", "RA", 5⟩] [⟨2, "B", "RA", 5⟩] [⟨3, "C", "RA", 5⟩]).1 (by decide)

/-- Claim C10: on an empty input `_get_listable_campsites` fails with the
out-of-bounds access (`IndexError`), not with an empty result and not with
the documented `NotImplementedError`; on a non-empty input the conversion
shape applied to every element is decided solely by the first element, so a
search-result head forces shape B onto a campsite tail (an
`AttributeError`). -/
theorem listable_campsites_dispatch :
    getListableCampsites [] = .error .indexError ∧
    (∀ (c : RecDotGovCampsite) (rest : List CampsiteResponse),
      getListableCampsites (.campsite c :: rest) =
        (CampsiteResponse.campsite c :: rest).mapM shapeAFields) ∧
    (∀ (r : RecDotGovSearchResult) (rest : List CampsiteResponse),
      getListableCampsites (.searchResult r :: rest) =
        (CampsiteResponse.searchResult r :: rest).mapM shapeBFields) ∧
    (∀ (r : RecDotGovSearchResult) (c : RecDotGovCampsite) (rest : List CampsiteResponse),
      getListableCampsites (.searchResult r :: .campsite c :: rest) =
        .error (.attributeError "object has no attribute entity_id")) :=
  ⟨rfl, fun _ _ => rfl, fun _ _ => rfl, fun _ _ _ => rfl⟩

/-! ### Timestamp vocabulary -/

theorem mem_timestamp_iff (s : String) :
    s ∈ TIMESTAMP_EQUIPMENT ↔
      ∃ h, h < 24 ∧ ∃ m, m < 60 ∧ s = zfill2 (Nat.repr h) ++ zfill2 (Nat.repr m) := by
  simp [TIMESTAMP_EQUIPMENT, List.mem_flatMap, List.mem_map, List.mem_range]
  constructor
  · rintro ⟨h, hh, m, hm, rfl⟩; exact ⟨h, hh, m, hm, rfl⟩
  · rintro ⟨h, hh, m, hm, rfl⟩; exact ⟨h, hh, m, hm, rfl⟩

theorem hhmm_of_bounded :
    ((List.range 24).all fun h => (List.range 60).all fun m =>
      specValidHHMM (zfill2 (Nat.repr h) ++ zfill2 (Nat.repr m))) = true := by decide

theorem zfill2_repr_eq (x : Nat) (hx : x < 100) :
    zfill2 (Nat.repr x) = String.mk [Char.ofNat (48 + x / 10), Char.ofNat (48 + x % 10)] := by
  have hall : ((List.range 100).all fun y =>
      zfill2 (Nat.repr y) == String.mk [Char.ofNat (48 + y / 10), Char.ofNat (48 + y % 10)]) = true := by
    decide
  rw [List.all_eq_true] at hall
  exact eq_of_beq (hall x (List.mem_range.mpr hx))

theorem digit_toNat_bounds (a : Char) (h : a.isDigit = true) :
    48 ≤ a.toNat ∧ a.toNat ≤ 57 := by
  simp only [Char.isDigit, Bool.and_eq_true, decide_eq_true_eq, ge_iff_le] at h
  obtain ⟨h1, h2⟩ := h
  constructor
  · exact UInt32.le_toNat_of_le (by norm_num) h1
  · exact UInt32.toNat_le_of_le (by norm_num) h2

theorem digit_roundtrip (a : Char) (h : a.isDigit = true) :
    Char.ofNat (48 + (a.toNat - 48)) = a := by
  obtain ⟨h1, h2⟩ := digit_toNat_bounds a h
  have heq : 48 + (a.toNat - 48) = a.toNat := by omega
  rw [heq, Char.ofNat_toNat]

theorem valid_hhmm_mem (s : String) (h : specValidHHMM s = true) :
    s ∈ TIMESTAMP_EQUIPMENT := by
  obtain ⟨l⟩ := s
  match l with
  | [] => simp [specValidHHMM] at h
  | [a] => simp [specValidHHMM] at h
  | [a, b] => simp [specValidHHMM] at h
  | [a, b, c] => simp [specValidHHMM] at h
  | [a, b, c, d] =>
    simp only [specValidHHMM, Bool.and_eq_true, decide_eq_true_eq] at h
    obtain ⟨⟨⟨⟨⟨ha, hb⟩, hc⟩, hd⟩, hhour⟩, hmin⟩ := h
    obtain ⟨ha1, ha2⟩ := digit_toNat_bounds a ha
    obtain ⟨hb1, hb2⟩ := digit_toNat_bounds b hb
    obtain ⟨hc1, hc2⟩ := digit_toNat_bounds c hc
    obtain ⟨hd1, hd2⟩ := digit_toNat_bounds d hd
    rw [mem_timestamp_iff]
    refine ⟨(a.toNat - 48) * 10 + (b.toNat - 48), hhour,
      (c.toNat - 48) * 10 + (d.toNat - 48), hmin, ?_⟩
    rw [zfill2_repr_eq _ (by omega), zfill2_repr_eq _ (by omega)]
    have h1 : ((a.toNat - 48) * 10 + (b.toNat - 48)) / 10 = a.toNat - 48 := by omega
    have h2 : ((a.toNat - 48) * 10 + (b.toNat - 48)) % 10 = b.toNat - 48 := by omega
    have h3 : ((c.toNat - 48) * 10 + (d.toNat - 48)) / 10 = c.toNat - 48 := by omega
    have h4 : ((c.toNat - 48) * 10 + (d.toNat - 48)) % 10 = d.toNat - 48 := by omega
    rw [h1, h2, h3, h4, digit_roundtrip a ha, digit_roundtrip b hb,
      digit_roundtrip c hc, digit_roundtrip d hd]
    rfl
  | a :: b :: c :: d :: e :: rest => simp [specValidHHMM] at h

theorem mem_valid_hhmm (s : String) (h : s ∈ TIMESTAMP_EQUIPMENT) :
    specValidHHMM s = true := by
  rw [mem_timestamp_iff] at h
  obtain ⟨hh, hhlt, mm, mmlt, rfl⟩ := h
  have hall := hhmm_of_bounded
  rw [List.all_eq_true] at hall
  have h1 := hall hh (List.mem_range.mpr hhlt)
  rw [List.all_eq_true] at h1
  exact h1 mm (List.mem_range.mpr mmlt)

theorem ts_ne_accepted : (TIMESTAMP_EQUIPMENT == allAcceptedEquipment) = false := by decide

theorem kept_timestamp_eq (name : String) :
    keptEquipment .timestamp name = specValidHHMM name := by
  have hself : (TIMESTAMP_EQUIPMENT == TIMESTAMP_EQUIPMENT) = true := beq_self_eq_true _
  simp only [keptEquipment, acceptedEquipment, ts_ne_accepted, hself,
    Bool.false_and, Bool.true_and, if_neg Bool.false_ne_true]
  cases hv : specValidHHMM name with
  | true =>
    have hmem := valid_hhmm_mem name hv
    simp [hmem]
  | false =>
    have hnotmem : name ∉ TIMESTAMP_EQUIPMENT := fun hmem => by
      rw [mem_valid_hhmm name hmem] at hv; cases hv
    simp [hnotmem]

set_option maxRecDepth 40000 in
/-- Claim C7: in timestamp mode a requested name is accepted exactly when it
is a 4-character zero-padded HHMM string for a valid 24-hour time: the
timestamp vocabulary contains precisely those strings, the validator keeps an
entry exactly on that condition, and concretely "0930" and "2359" are
retained while "2400" and "93" are dropped. -/
theorem timestamp_mode_accepts_exactly_hhmm :
    (∀ s : String, s ∈ TIMESTAMP_EQUIPMENT ↔ specValidHHMM s = true) ∧
    (∀ name : String, keptEquipment .timestamp name = specValidHHMM name) ∧
    getSearchableEquipment .timestamp
      (some [("0930", none), ("2359", none), ("2400", none), ("93", none)]) =
      some [("0930", none), ("2359", none)] := by
  refine ⟨fun s => ⟨mem_valid_hhmm s, valid_hhmm_mem s⟩, kept_timestamp_eq, ?_⟩
  simp only [getSearchableEquipment]
  rw [List.filter_congr (fun e _ => kept_timestamp_eq e.1)]
  decide

set_option maxRecDepth 40000 in
/-- Witness for claim C7 at the concrete input "0930". -/
theorem timestamp_mode_accepts_exactly_hhmm_witness :
    "0930" ∈ TIMESTAMP_EQUIPMENT :=
  (timestamp_mode_accepts_exactly_hhmm.1 "0930").mpr (by decide)

/-! ### Validation and normalization -/

/-- mapM over Except: pointwise ok yields a map. -/
theorem mapM_ok_of_forall {α β : Type} (f : α → Except PyError β) (g : α → β)
    (l : List α) (h : ∀ x ∈ l, f x = .ok (g x)) : l.mapM f = .ok (l.map g) := by
  induction l with
  | nil => rfl
  | cons a t ih =>
    simp only [List.mapM_cons, List.map_cons, h a (by simp),
      ih (fun x hx => h x (by simp [hx]))]
    rfl

/-- mapM over Except: an erroring element makes the whole mapM error. -/
theorem mapM_error_of_mem {α β : Type} (f : α → Except PyError β) :
    ∀ (l : List α) (x : α), x ∈ l → (∃ e, f x = .error e) →
      ∃ err, l.mapM f = .error err := by
  intro l
  induction l with
  | nil => intro x hx; cases hx
  | cons a t ih =>
    intro x hx ⟨e, he⟩
    rcases List.mem_cons.mp hx with rfl | hmem
    · exact ⟨e, by rw [List.mapM_cons, he]; rfl⟩
    · cases hfa : f a with
      | error ea => exact ⟨ea, by rw [List.mapM_cons, hfa]; rfl⟩
      | ok b =>
        obtain ⟨err, herr⟩ := ih x hmem ⟨e, he⟩
        refine ⟨err, ?_⟩
        rw [List.mapM_cons, hfa]
        show List.cons b <$> List.mapM f t = Except.error err
        rw [herr]
        rfl

/-- Claim C8: equipment validation never raises: every invalid entry is
dropped, the valid ones survive in original order with their lengths
untouched (the result is the sublist of entries passing the check of the mode),
and when every entry is invalid the result is the empty list, which makes
the subsequent equipment filter a no-op. -/
theorem validation_never_raises_and_degrades :
    ∀ (mode : Mode) (reqs : List EquipmentRequest),
      getSearchableEquipment mode (some reqs) =
        some (reqs.filter fun e => keptEquipment mode e.1) ∧
      (reqs.filter fun e => keptEquipment mode e.1).Sublist reqs ∧
      ((∀ e ∈ reqs, keptEquipment mode e.1 = false) →
        getSearchableEquipment mode (some reqs) = some [] ∧
        ∀ rows, filterCampsitesToEquipment mode
          (getSearchableEquipment mode (some reqs)) rows = .ok rows) := by
  intro mode reqs
  refine ⟨rfl, List.filter_sublist reqs, fun hall => ?_⟩
  have hempty : reqs.filter (fun e => keptEquipment mode e.1) = [] :=
    List.filter_eq_nil_iff.mpr (fun e he => by simp [hall e he])
  constructor
  · show some (reqs.filter fun e => keptEquipment mode e.1) = some []
    rw [hempty]
  · intro rows
    show filterCampsitesToEquipment mode
      (some (reqs.filter fun e => keptEquipment mode e.1)) rows = .ok rows
    rw [hempty]
    rfl

/-- Witness for claim C8: an entirely invalid request list degrades to no
filtering. -/
theorem validation_never_raises_and_degrades_witness :
    getSearchableEquipment .category (some [("spaceship", (none : Option Int))]) = some [] ∧
    filterCampsitesToEquipment .category
      (getSearchableEquipment .category (some [("spaceship", none)]))
      [⟨1, [⟨some "Tent", some 5⟩]⟩] = .ok [⟨1, [⟨some "Tent", some 5⟩]⟩] := by
  have h := (validation_never_raises_and_degrades .category [("spaceship", none)]).2.2
    (by decide)
  exact ⟨h.1, h.2 [⟨1, [⟨some "Tent", some 5⟩]⟩]⟩

theorem normalize_missing_is_other (v : VirtualEntry)
    (h : v.equipment_name = none ∨ v.equipment_name = some "") :
    normalizeEntry .category v = .ok (v, some "other") := by
  have hl : equipmentReverseLookup "" = some "other" := by decide
  rcases h with h | h <;> simp [normalizeEntry, h, hl]

theorem normalize_unknown_errors (v : VirtualEntry) (s : String)
    (hs : v.equipment_name = some s) (hl : equipmentReverseLookup s = none) :
    normalizeEntry .category v = .error (.keyError s) := by
  simp [normalizeEntry, hs, hl]

theorem mem_explodeRow_of_mem (r : ConsolidatedRow) (e : EquipmentEntry)
    (he : e ∈ r.permitted_equipment) :
    (⟨r.campsite_id, e.equipment_name, e.max_length⟩ : VirtualEntry) ∈ explodeRow r := by
  unfold explodeRow
  cases hpe : r.permitted_equipment with
  | nil => rw [hpe] at he; cases he
  | cons p ps =>
    rw [hpe] at he
    exact List.mem_map.mpr ⟨e, he, rfl⟩

theorem filter_errors_on_unknown (req : EquipmentRequest) (reqs : List EquipmentRequest)
    (rows : List ConsolidatedRow) (r : ConsolidatedRow) (e : EquipmentEntry) (s : String)
    (hr : r ∈ rows) (he : e ∈ r.permitted_equipment)
    (hs : e.equipment_name = some s) (hl : equipmentReverseLookup s = none) :
    ∃ err, filterCampsitesToEquipment .category (some (req :: reqs)) rows = .error err := by
  have hrows : rows.length ≠ 0 := by
    cases rows with
    | nil => cases hr
    | cons a t => simp
  have hv : (⟨r.campsite_id, e.equipment_name, e.max_length⟩ : VirtualEntry) ∈
      rows.flatMap explodeRow :=
    List.mem_flatMap.mpr ⟨r, hr, mem_explodeRow_of_mem r e he⟩
  have hne : normalizeEntry .category ⟨r.campsite_id, e.equipment_name, e.max_length⟩ =
      .error (.keyError s) := normalize_unknown_errors _ s hs hl
  obtain ⟨err, herr⟩ := mapM_error_of_mem (normalizeEntry .category) _ _ hv ⟨_, hne⟩
  refine ⟨err, ?_⟩
  simp only [filterCampsitesToEquipment]
  rw [if_neg (by simp [hrows]), herr]

theorem kept_category_eq (name : String) :
    keptEquipment .category name = allAcceptedEquipment.contains (pyLower name) := by
  have hne : (allAcceptedEquipment == TIMESTAMP_EQUIPMENT) = false := by decide
  have hself : (allAcceptedEquipment == allAcceptedEquipment) = true := beq_self_eq_true _
  simp only [keptEquipment, acceptedEquipment, hself, hne, Bool.true_and, Bool.false_and,
    if_neg Bool.false_ne_true]
  cases hc : allAcceptedEquipment.contains (pyLower name) <;> simp [hc]

/-- Counterexample to claim C2: a row carrying a permitted-equipment entry
whose raw name is absent from the vocabulary makes the category-mode filter
raise a `KeyError`; the entry is not normalized to the empty string and the
filter does fail on such a row. -/
theorem unknown_raw_name_keyerror_counterexample :
    filterCampsitesToEquipment .category (some [("tent", none)])
      [⟨1, [⟨some "Kayak", some 10⟩]⟩] = .error (.keyError "Kayak") := by rfl

/-- Claim C2 (amended): in category mode a missing or empty raw name is
filled with the empty string and normalizes to the "other" bucket, but an
entry whose raw name is a string absent from the vocabulary makes the
normalization - and with it the whole filter, whenever the request list is
non-empty - fail with a `KeyError` for that string, instead of normalizing
to the empty string. -/
theorem unknown_raw_name_raises :
    (∀ v : VirtualEntry, v.equipment_name = none ∨ v.equipment_name = some "" →
      normalizeEntry .category v = .ok (v, some "other")) ∧
    (∀ (v : VirtualEntry) (s : String), v.equipment_name = some s →
      equipmentReverseLookup s = none →
      normalizeEntry .category v = .error (.keyError s)) ∧
    (∀ (req : EquipmentRequest) (reqs : List EquipmentRequest)
      (rows : List ConsolidatedRow) (r : ConsolidatedRow) (e : EquipmentEntry) (s : String),
      r ∈ rows → e ∈ r.permitted_equipment → e.equipment_name = some s →
      equipmentReverseLookup s = none →
      ∃ err, filterCampsitesToEquipment .category (some (req :: reqs)) rows = .error err) :=
  ⟨normalize_missing_is_other,
   fun v s => normalize_unknown_errors v s,
   fun req reqs rows r e s hr he hs hl =>
     filter_errors_on_unknown req reqs rows r e s hr he hs hl⟩

/-- Witness for claim C2 at the concrete unknown raw name "Kayak". -/
theorem unknown_raw_name_raises_witness :
    ∃ err, filterCampsitesToEquipment .category (some [("tent", none)])
      [⟨1, [⟨some "Kayak", some 10⟩]⟩] = .error err :=
  unknown_raw_name_raises.2.2 ("tent", none) [] [⟨1, [⟨some "Kayak", some 10⟩]⟩]
    ⟨1, [⟨some "Kayak", some 10⟩]⟩ ⟨some "Kayak", some 10⟩ "Kayak"
    (by decide) (by decide) rfl (by decide)

/-- Counterexample to claim C3: with the request
`[("other", None), ("tent", None)]` - which contains `("other", None)` - a
row whose only permitted-equipment entry has an empty raw name is NOT
returned: "other" is dropped by validation and the remaining "tent" request
does not match the "other" bucket. -/
theorem requesting_other_not_matched_counterexample :
    getSearchableEquipment .category (some [("other", none), ("tent", none)]) =
      some [("tent", none)] ∧
    filterCampsitesToEquipment .category
      (getSearchableEquipment .category (some [("other", none), ("tent", none)]))
      [⟨1, [⟨some "", some 10⟩]⟩] = .ok [] := by
  exact ⟨by decide, by rfl⟩

/-- Claim C3 (amended): an entry with a missing or empty raw name does
normalize to the "other" bucket, but "other" is never retained by
category-mode validation; a request consisting of `("other", len)` alone
validates to the empty list, so the filter degrades to a no-op and returns
every row (rather than matching the "other" bucket), and no validated
request name can ever equal "other". -/
theorem requesting_other_is_dropped :
    (∀ v : VirtualEntry, v.equipment_name = none ∨ v.equipment_name = some "" →
      normalizeEntry .category v = .ok (v, some "other")) ∧
    keptEquipment .category "other" = false ∧
    (∀ (len : Option Int) (rows : List ConsolidatedRow),
      getSearchableEquipment .category (some [("other", len)]) = some [] ∧
      filterCampsitesToEquipment .category
        (getSearchableEquipment .category (some [("other", len)])) rows = .ok rows) ∧
    (∀ name : String, keptEquipment .category name = true → pyLower name ≠ "other") := by
  have hother : keptEquipment .category "other" = false := by decide
  refine ⟨normalize_missing_is_other, hother, fun len rows => ⟨?_, ?_⟩, ?_⟩
  · show some ([("other", len)].filter fun e => keptEquipment .category e.1) = some []
    simp [hother]
  · show filterCampsitesToEquipment .category
      (some ([("other", len)].filter fun e => keptEquipment .category e.1)) rows = .ok rows
    simp only [List.filter, hother]
    rfl
  · intro name hk hcontra
    rw [kept_category_eq, hcontra] at hk
    exact absurd hk (by decide)

/-- Witness for claim C3 at concrete inputs: an empty-name entry normalizes
to "other", an "other"-only request leaves the rows untouched, and the
validated name "TENT" is not "other". -/
theorem requesting_other_is_dropped_witness :
    normalizeEntry .category ⟨5, some "", some 12⟩ = .ok (⟨5, some "", some 12⟩, some "other") ∧
    filterCampsitesToEquipment .category
      (getSearchableEquipment .category (some [("other", none)]))
      [⟨5, [⟨some "", some 12⟩]⟩] = .ok [⟨5, [⟨some "", some 12⟩]⟩] ∧
    pyLower "TENT" ≠ "other" :=
  ⟨requesting_other_is_dropped.1 ⟨5, some "", some 12⟩ (Or.inr rfl),
   (requesting_other_is_dropped.2.2.1 none [⟨5, [⟨some "", some 12⟩]⟩]).2,
   requesting_other_is_dropped.2.2.2 "TENT" (by decide)⟩

/-! ### The equipment filter on well-formed rows -/

theorem mem_explodeRow_iff (r : ConsolidatedRow) (v : VirtualEntry) :
    v ∈ explodeRow r ↔
      (r.permitted_equipment = [] ∧ v = ⟨r.campsite_id, none, none⟩) ∨
      (∃ e ∈ r.permitted_equipment, v = ⟨r.campsite_id, e.equipment_name, e.max_length⟩) := by
  unfold explodeRow
  cases hpe : r.permitted_equipment with
  | nil => simp
  | cons p ps =>
    simp only [List.mem_map, hpe]
    constructor
    · rintro ⟨e, he, rfl⟩
      exact Or.inr ⟨e, he, rfl⟩
    · rintro (⟨hfalse, _⟩ | ⟨e, he, rfl⟩)
      · cases hfalse
      · exact ⟨e, he, rfl⟩

theorem normalize_ok_of_isSome (v : VirtualEntry)
    (h : (equipmentReverseLookup (v.equipment_name.getD "")).isSome = true) :
    normalizeEntry .category v = .ok (v, equipmentReverseLookup (v.equipment_name.getD "")) := by
  obtain ⟨c, hc⟩ := Option.isSome_iff_exists.mp h
  simp [normalizeEntry, hc]

theorem mem_foldl_unique (y : Int) :
    ∀ (xs acc : List Int),
      (y ∈ xs.foldl (fun acc x => if acc.contains x then acc else acc ++ [x]) acc) ↔
        y ∈ acc ∨ y ∈ xs := by
  intro xs
  induction xs with
  | nil => intro acc; simp
  | cons x xs ih =>
    intro acc
    rw [List.foldl_cons]
    by_cases hx : acc.contains x = true
    · rw [if_pos hx, ih]
      constructor
      · rintro (h | h)
        · exact Or.inl h
        · exact Or.inr (by simp [h])
      · rintro (h | h)
        · exact Or.inl h
        · rcases List.mem_cons.mp h with rfl | h2
          · exact Or.inl (by simpa using hx)
          · exact Or.inr h2
    · rw [if_neg hx, ih]
      simp [or_assoc, or_comm (a := y ∈ [x])]

theorem mem_uniqueKeepFirst (y : Int) (xs : List Int) :
    y ∈ uniqueKeepFirst xs ↔ y ∈ xs := by
  unfold uniqueKeepFirst
  rw [mem_foldl_unique]
  simp



theorem bool_eq_of_iff {a b : Bool} (h : a = true ↔ b = true) : a = b := by
  cases a <;> cases b <;> simp_all

theorem mem_step2_iff (name : String) (eqTypes : List String)
    (rows : List ConsolidatedRow) (je : VirtualEntry × Option String) :
    je ∈ List.filter (fun je => je.2 == some (pyLower name))
          (List.filter (fun je =>
              match je.2 with
              | some n => eqTypes.contains n
              | none => false)
            (List.map (fun v => (v, equipmentReverseLookup (v.equipment_name.getD "")))
              (rows.flatMap explodeRow))) ↔
      (∃ v ∈ rows.flatMap explodeRow,
        (v, equipmentReverseLookup (v.equipment_name.getD "")) = je) ∧
      je.2 = some (pyLower name) ∧ eqTypes.contains (pyLower name) = true := by
  simp only [List.mem_filter, List.mem_map, beq_iff_eq]
  constructor
  · rintro ⟨⟨⟨v, hv, rfl⟩, hisin⟩, heq⟩
    refine ⟨⟨v, hv, rfl⟩, heq, ?_⟩
    have heq2 : equipmentReverseLookup (v.equipment_name.getD "") = some (pyLower name) := heq
    rw [heq2] at hisin
    exact hisin
  · rintro ⟨⟨v, hv, rfl⟩, heq, hcont⟩
    refine ⟨⟨⟨v, hv, rfl⟩, ?_⟩, heq⟩
    have heq2 : equipmentReverseLookup (v.equipment_name.getD "") = some (pyLower name) := heq
    rw [heq2]
    exact hcont

theorem filter_single_request (name : String) (optLen : Option Int)
    (rows : List ConsolidatedRow)
    (hname : pyLower name ≠ "other")
    (h1 : ∀ r ∈ rows, ∀ e ∈ r.permitted_equipment,
      (equipmentReverseLookup (e.equipment_name.getD "")).isSome = true)
    (h2 : (rows.map ConsolidatedRow.campsite_id).Nodup) :
    filterCampsitesToEquipment .category (some [(name, optLen)]) rows =
      .ok (rows.filter (rowMatches name optLen)) := by
  cases hrows : rows with
  | nil => simp [filterCampsitesToEquipment]
  | cons a t =>
    rw [← hrows]
    have hlen : ¬([(name, optLen)].length = 0 ∨ rows.length = 0) := by
      simp [hrows]
    have hok : ∀ v ∈ rows.flatMap explodeRow,
        normalizeEntry .category v =
          .ok (v, equipmentReverseLookup (v.equipment_name.getD "")) := by
      intro v hv
      obtain ⟨r, hr, hvr⟩ := List.mem_flatMap.mp hv
      rcases (mem_explodeRow_iff r v).mp hvr with ⟨hpe, rfl⟩ | ⟨e, he, rfl⟩
      · exact normalize_ok_of_isSome _
          (show (equipmentReverseLookup ((none : Option String).getD "")).isSome = true
            by decide)
      · exact normalize_ok_of_isSome _ (h1 r hr e he)
    have hmapM := mapM_ok_of_forall (normalizeEntry .category)
      (fun v => (v, equipmentReverseLookup (v.equipment_name.getD "")))
      (rows.flatMap explodeRow) hok
    simp only [filterCampsitesToEquipment]
    rw [if_neg hlen, hmapM]
    refine congrArg Except.ok ?_
    simp only [List.foldl_cons, List.foldl_nil, List.nil_append]
    refine List.filter_congr fun r hr => ?_
    apply bool_eq_of_iff
    cases optLen with
    | none =>
      rw [List.elem_iff, mem_uniqueKeepFirst, List.mem_map]
      constructor
      · rintro ⟨je, hje, hid⟩
        obtain ⟨⟨v, hv, hgv⟩, h2eq, hct⟩ := (mem_step2_iff name _ rows je).mp hje
        subst hgv
        obtain ⟨r2, hr2, hvr2⟩ := List.mem_flatMap.mp hv
        rcases (mem_explodeRow_iff r2 v).mp hvr2 with ⟨hpe, rfl⟩ | ⟨e, he, rfl⟩
        · exfalso
          apply hname
          have hother : equipmentReverseLookup "" = some "other" := by decide
          have h2eq2 : equipmentReverseLookup "" = some (pyLower name) := h2eq
          rw [hother] at h2eq2
          exact (Option.some.injEq _ _ ▸ h2eq2).symm
        · have hid2 : r2.campsite_id = r.campsite_id := hid
          have hrr : r2 = r := List.inj_on_of_nodup_map h2 hr2 hr hid2
          subst hrr
          have hlook : equipmentReverseLookup (e.equipment_name.getD "") =
              some (pyLower name) := h2eq
          simp only [rowMatches, List.any_eq_true]
          refine ⟨e, he, ?_⟩
          simp only [entryMatches, Bool.and_eq_true, beq_iff_eq]
          exact ⟨hlook, rfl⟩
      · intro hrm
        simp only [rowMatches, List.any_eq_true] at hrm
        obtain ⟨e, he, hem⟩ := hrm
        simp only [entryMatches, Bool.and_eq_true, beq_iff_eq] at hem
        obtain ⟨hlook, hlen⟩ := hem
        refine ⟨(⟨r.campsite_id, e.equipment_name, e.max_length⟩,
          equipmentReverseLookup (e.equipment_name.getD "")), ?_, rfl⟩
        apply (mem_step2_iff name _ rows _).mpr
        refine ⟨⟨⟨r.campsite_id, e.equipment_name, e.max_length⟩,
          List.mem_flatMap.mpr ⟨r, hr, mem_explodeRow_of_mem r e he⟩, rfl⟩, hlook, by simp⟩
    | some len =>
      rw [List.elem_iff, mem_uniqueKeepFirst, List.mem_map]
      constructor
      · rintro ⟨je, hje, hid⟩
        rw [List.mem_filter] at hje
        obtain ⟨hje2, hlenp⟩ := hje
        obtain ⟨⟨v, hv, hgv⟩, h2eq, hct⟩ := (mem_step2_iff name _ rows je).mp hje2
        subst hgv
        obtain ⟨r2, hr2, hvr2⟩ := List.mem_flatMap.mp hv
        rcases (mem_explodeRow_iff r2 v).mp hvr2 with ⟨hpe, rfl⟩ | ⟨e, he, rfl⟩
        · exfalso
          apply hname
          have hother : equipmentReverseLookup "" = some "other" := by decide
          have h2eq2 : equipmentReverseLookup "" = some (pyLower name) := h2eq
          rw [hother] at h2eq2
          exact (Option.some.injEq _ _ ▸ h2eq2).symm
        · have hid2 : r2.campsite_id = r.campsite_id := hid
          have hrr : r2 = r := List.inj_on_of_nodup_map h2 hr2 hr hid2
          subst hrr
          have hlook : equipmentReverseLookup (e.equipment_name.getD "") =
              some (pyLower name) := h2eq
          have hlenv : lenOk (some len) e.max_length = true := hlenp
          simp only [rowMatches, List.any_eq_true]
          refine ⟨e, he, ?_⟩
          simp only [entryMatches, Bool.and_eq_true, beq_iff_eq]
          exact ⟨hlook, hlenv⟩
      · intro hrm
        simp only [rowMatches, List.any_eq_true] at hrm
        obtain ⟨e, he, hem⟩ := hrm
        simp only [entryMatches, Bool.and_eq_true, beq_iff_eq] at hem
        obtain ⟨hlook, hlen⟩ := hem
        refine ⟨(⟨r.campsite_id, e.equipment_name, e.max_length⟩,
          equipmentReverseLookup (e.equipment_name.getD "")), ?_, rfl⟩
        rw [List.mem_filter]
        constructor
        · apply (mem_step2_iff name _ rows _).mpr
          refine ⟨⟨⟨r.campsite_id, e.equipment_name, e.max_length⟩,
            List.mem_flatMap.mpr ⟨r, hr, mem_explodeRow_of_mem r e he⟩, rfl⟩, hlook, by simp⟩
        · exact hlen

/-- Counterexample to claim C4: the quantification over every list of
consolidated rows fails - a row whose permitted-equipment entry carries a
raw name outside the vocabulary makes the filter raise a `KeyError` instead
of returning the matching rows. -/
theorem filter_rv20_counterexample :
    filterCampsitesToEquipment .category (some [("rv", some 20)])
      [⟨1, [⟨some "Kayak", some 25⟩]⟩] = .error (.keyError "Kayak") := by rfl

/-- Claim C4 (amended): for every list of consolidated rows whose
permitted-equipment raw names are all in the vocabulary (missing names
included) and whose campsite ids are pairwise distinct, the filter with
request `[("rv", 20)]` returns exactly the rows having an entry that
normalizes to the rv category with max_length at least 20, and with request
`[("tent", None)]` exactly the rows having any tent-category entry
regardless of length; a row whose only entry is "Tent" does not match the
rv request. -/
theorem filter_rv20_and_tent :
    ∀ rows : List ConsolidatedRow,
      (∀ r ∈ rows, ∀ e ∈ r.permitted_equipment,
        (equipmentReverseLookup (e.equipment_name.getD "")).isSome = true) →
      (rows.map ConsolidatedRow.campsite_id).Nodup →
      filterCampsitesToEquipment .category (some [("rv", some 20)]) rows =
        .ok (rows.filter (rowMatches "rv" (some 20))) ∧
      filterCampsitesToEquipment .category (some [("tent", none)]) rows =
        .ok (rows.filter (rowMatches "tent" none)) ∧
      rowMatches "rv" (some 20) ⟨1, [⟨some "Tent", some 99⟩]⟩ = false := by
  intro rows h1 h2
  exact ⟨filter_single_request "rv" (some 20) rows (by decide) h1 h2,
    filter_single_request "tent" none rows (by decide) h1 h2, by decide⟩

/-- Witness for claim C4: on two concrete rows the rv-20 request keeps the
25-foot RV site and drops the tent-only site. -/
theorem filter_rv20_and_tent_witness :
    filterCampsitesToEquipment .category (some [("rv", some 20)])
      [⟨1, [⟨some "RV", some 25⟩]⟩, ⟨2, [⟨some "Tent", some 99⟩]⟩] =
      .ok [⟨1, [⟨some "RV", some 25⟩]⟩] := by
  have h := filter_rv20_and_tent
    [⟨1, [⟨some "RV", some 25⟩]⟩, ⟨2, [⟨some "Tent", some 99⟩]⟩]
    (by decide) (by decide)
  rw [h.1]
  rfl

/-! ### The aggregation loop -/

theorem monthStep_sleeps (env : Env) (st : SearchState) (metadata : Metadata)
    (campground : CampgroundFacility) (index : Nat)
    (acc : List AvailableCampsite × Nat) (month : Month) :
    (monthStep env st metadata campground index acc month).2 =
      acc.2 + (if index + 1 < st.campgrounds.length then 1 else 0) := by
  simp only [monthStep]
  split
  · rfl
  · simp

theorem monthLoop_sleeps (env : Env) (st : SearchState) (metadata : Metadata)
    (campground : CampgroundFacility) (index : Nat) :
    ∀ (months : List Month) (acc : List AvailableCampsite × Nat),
      (months.foldl (monthStep env st metadata campground index) acc).2 =
        acc.2 + months.length * (if index + 1 < st.campgrounds.length then 1 else 0) := by
  intro months
  induction months with
  | nil => intro acc; simp
  | cons m ms ih =>
    intro acc
    rw [List.foldl_cons, ih, monthStep_sleeps]
    split
    · simp only [List.length_cons]
      ring
    · simp

theorem facilityLoop_sleeps (env : Env) (st : SearchState) (metadata : Metadata) :
    ∀ (l : List CampgroundFacility) (k : Nat) (acc : List AvailableCampsite × Nat),
      k + l.length = st.campgrounds.length →
      ((List.enumFrom k l).foldl (facilityStep env st metadata) acc).2 =
        acc.2 + st.searchMonths.length * (l.length - 1) := by
  intro l
  induction l with
  | nil => intro k acc h; simp
  | cons c cs ih =>
    intro k acc h
    have hcons : List.enumFrom k (c :: cs) = (k, c) :: List.enumFrom (k + 1) cs := rfl
    rw [hcons, List.foldl_cons, ih (k + 1) _ (by simp at h ⊢; omega)]
    have hstep : (facilityStep env st metadata acc (k, c)).2 =
        acc.2 + st.searchMonths.length * (if k + 1 < st.campgrounds.length then 1 else 0) :=
      monthLoop_sleeps env st metadata c k st.searchMonths acc
    rw [hstep]
    cases cs with
    | nil =>
      have hno : ¬(k + 1 < st.campgrounds.length) := by simp at h; omega
      rw [if_neg hno]
      simp
    | cons d ds =>
      have hyes : k + 1 < st.campgrounds.length := by simp at h; omega
      rw [if_pos hyes]
      simp only [List.length_cons, Nat.add_sub_cancel]
      ring



/-- Claim C1 (amended): one full run of the aggregation loop invokes the
rate-limit sleep exactly `len(search_months) * (len(facilities) - 1)` times -
the sleep guard sits inside the month loop, so it fires after every month of
every facility except the last - and zero times when there is exactly one
facility, regardless of how many months are searched. -/
theorem rate_limit_sleep_count (env : Env) (st : SearchState)
    (h : st.campgrounds ≠ []) :
    (getAllCampsites env st).effects.sleeps =
      st.searchMonths.length * (st.campgrounds.length - 1) ∧
    (st.campgrounds.length = 1 → (getAllCampsites env st).effects.sleeps = 0) := by
  have hlen : ¬(st.campgrounds.length = 0) := fun hc => h (List.length_eq_zero.mp hc)
  have hmain : (getAllCampsites env st).effects.sleeps =
      st.searchMonths.length * (st.campgrounds.length - 1) := by
    simp only [getAllCampsites]
    rw [if_neg hlen]
    split
    · show (⟨_, ⟨((st.campgrounds.enum).foldl _ ([], 0)).2, _⟩, _⟩ : SearchOutcome).effects.sleeps = _
      show ((st.campgrounds.enum).foldl _ ([], 0)).2 = _
      have henum : st.campgrounds.enum = List.enumFrom 0 st.campgrounds := rfl
      rw [henum, facilityLoop_sleeps env st _ st.campgrounds 0 ([], 0) (by omega)]
      simp
    · show ((st.campgrounds.enum).foldl _ ([], 0)).2 = _
      have henum : st.campgrounds.enum = List.enumFrom 0 st.campgrounds := rfl
      rw [henum, facilityLoop_sleeps env st _ st.campgrounds 0 ([], 0) (by omega)]
      simp
  exact ⟨hmain, fun h1 => by rw [hmain, h1]; simp⟩



theorem getAllCampsites_meta_none (env : Env) (st : SearchState)
    (hlen : ¬(st.campgrounds.length = 0)) (hm : st.campsite_metadata = none) :
    (getAllCampsites env st).state =
      { st with
        campsite_metadata := some (env.getInternalCampsiteMetadata
          (st.campgrounds.map CampgroundFacility.facility_id)) } ∧
    (getAllCampsites env st).effects.metadataFetches = 1 := by
  constructor <;>
    (simp only [getAllCampsites]; rw [if_neg hlen, hm]; split <;> rfl)

theorem getAllCampsites_meta_some (env : Env) (st : SearchState) (m : Metadata)
    (hlen : ¬(st.campgrounds.length = 0)) (hm : st.campsite_metadata = some m) :
    (getAllCampsites env st).state = { st with campsite_metadata := some m } ∧
    (getAllCampsites env st).effects.metadataFetches = 0 := by
  constructor <;>
    (simp only [getAllCampsites]; rw [if_neg hlen, hm]; split <;> rfl)

/-- Claim C9: the campsite-metadata table is fetched at most once per search
object lifetime: a first call on a fresh object performs exactly one metadata
fetch and caches the result in the state, a call on an object that already
holds metadata performs zero fetches and keeps the cached value, and a second
call after any first call performs zero fetches and leaves the cache
unchanged. -/
theorem metadata_cached_once (env : Env) (st : SearchState) (h : st.campgrounds ≠ []) :
    (st.campsite_metadata = none →
      (getAllCampsites env st).state.campsite_metadata =
        some (env.getInternalCampsiteMetadata
          (st.campgrounds.map CampgroundFacility.facility_id)) ∧
      (getAllCampsites env st).effects.metadataFetches = 1) ∧
    (∀ m, st.campsite_metadata = some m →
      (getAllCampsites env st).state.campsite_metadata = some m ∧
      (getAllCampsites env st).effects.metadataFetches = 0) ∧
    (getAllCampsites env (getAllCampsites env st).state).effects.metadataFetches = 0 ∧
    (getAllCampsites env (getAllCampsites env st).state).state.campsite_metadata =
      (getAllCampsites env st).state.campsite_metadata := by
  have hlen : ¬(st.campgrounds.length = 0) := fun hc => h (List.length_eq_zero.mp hc)
  have hfirst : ∃ M, (getAllCampsites env st).state =
      { st with campsite_metadata := some M } := by
    cases hm : st.campsite_metadata with
    | none => exact ⟨env.getInternalCampsiteMetadata
        (st.campgrounds.map CampgroundFacility.facility_id),
        (getAllCampsites_meta_none env st hlen hm).1⟩
    | some m => exact ⟨m, (getAllCampsites_meta_some env st m hlen hm).1⟩
  obtain ⟨M, hM⟩ := hfirst
  have hlen2 : ¬((getAllCampsites env st).state.campgrounds.length = 0) := by
    rw [hM]; exact hlen
  have hm2 : (getAllCampsites env st).state.campsite_metadata = some M := by rw [hM]
  have hsecond := getAllCampsites_meta_some env (getAllCampsites env st).state M hlen2 hm2
  refine ⟨fun hm => ?_, fun m hm => ?_, hsecond.2, ?_⟩
  · have h1 := getAllCampsites_meta_none env st hlen hm
    exact ⟨by rw [h1.1], h1.2⟩
  · have h1 := getAllCampsites_meta_some env st m hlen hm
    exact ⟨by rw [h1.1], h1.2⟩
  · rw [hsecond.1, hm2]

/-- Counterexample to claim C1: with 2 facilities and 2 months the sleep is
invoked 2 times in a full run, not `len(facilities) - 1 = 1` - the count
depends on the number of months. -/
theorem rate_limit_sleep_per_month_counterexample :
    (getAllCampsites
      { getInternalCampsiteMetadata := fun _ => 0
        getRecdotgovData := fun _ _ => 0
        processCampsiteAvailability := fun _ _ _ _ => []
        campsitesToDf := fun _ => []
        filterDateOverlap := fun x => x
        consolidateCampsites := fun x _ => x
        dfToCampsites := fun _ => [] }
      { campgrounds := [⟨1, "A", "RA", 1⟩, ⟨2, "B", "RA", 1⟩]
        searchMonths := [1, 2]
        campsites := none
        equipment := none
        mode := .category
        nights := 1
        campsite_metadata := none }).effects.sleeps = 2 ∧ (2 : Nat) ≠ 2 - 1 :=
  ⟨rfl, by decide⟩

/-- Witness for claim C1: three facilities and two months give
`2 * (3 - 1) = 4` sleeps. -/
theorem rate_limit_sleep_count_witness :
    (getAllCampsites
      { getInternalCampsiteMetadata := fun _ => 0
        getRecdotgovData := fun _ _ => 0
        processCampsiteAvailability := fun _ _ _ _ => []
        campsitesToDf := fun _ => []
        filterDateOverlap := fun x => x
        consolidateCampsites := fun x _ => x
        dfToCampsites := fun _ => [] }
      { campgrounds := [⟨1, "A", "RA", 1⟩, ⟨2, "B", "RA", 1⟩, ⟨3, "C", "RA", 1⟩]
        searchMonths := [1, 2]
        campsites := none
        equipment := none
        mode := .category
        nights := 1
        campsite_metadata := none }).effects.sleeps = 4 :=
  (rate_limit_sleep_count
    { getInternalCampsiteMetadata := fun _ => 0
      getRecdotgovData := fun _ _ => 0
      processCampsiteAvailability := fun _ _ _ _ => []
      campsitesToDf := fun _ => []
      filterDateOverlap := fun x => x
      consolidateCampsites := fun x _ => x
      dfToCampsites := fun _ => [] }
    { campgrounds := [⟨1, "A", "RA", 1⟩, ⟨2, "B", "RA", 1⟩, ⟨3, "C", "RA", 1⟩]
      searchMonths := [1, 2]
      campsites := none
      equipment := none
      mode := .category
      nights := 1
      campsite_metadata := none } (by decide)).1

/-- Witness for claim C9: on a concrete fresh search object the first call
fetches metadata exactly once and the second call fetches none. -/
theorem metadata_cached_once_witness :
    (getAllCampsites
      { getInternalCampsiteMetadata := fun _ => 7
        getRecdotgovData := fun _ _ => 0
        processCampsiteAvailability := fun _ _ _ _ => []
        campsitesToDf := fun _ => []
        filterDateOverlap := fun x => x
        consolidateCampsites := fun x _ => x
        dfToCampsites := fun _ => [] }
      { campgrounds := [⟨1, "A", "RA", 1⟩]
        searchMonths := [1]
        campsites := none
        equipment := none
        mode := .category
        nights := 1
        campsite_metadata := none }).effects.metadataFetches = 1 ∧
    (getAllCampsites
      { getInternalCampsiteMetadata := fun _ => 7
        getRecdotgovData := fun _ _ => 0
        processCampsiteAvailability := fun _ _ _ _ => []
        campsitesToDf := fun _ => []
        filterDateOverlap := fun x => x
        consolidateCampsites := fun x _ => x
        dfToCampsites := fun _ => [] }
      (getAllCampsites
        { getInternalCampsiteMetadata := fun _ => 7
          getRecdotgovData := fun _ _ => 0
          processCampsiteAvailability := fun _ _ _ _ => []
          campsitesToDf := fun _ => []
          filterDateOverlap := fun x => x
          consolidateCampsites := fun x _ => x
          dfToCampsites := fun _ => [] }
        { campgrounds := [⟨1, "A", "RA", 1⟩]
          searchMonths := [1]
          campsites := none
          equipment := none
          mode := .category
          nights := 1
          campsite_metadata := none }).state).effects.metadataFetches = 0 := by
  have h := metadata_cached_once
    { getInternalCampsiteMetadata := fun _ => 7
      getRecdotgovData := fun _ _ => 0
      processCampsiteAvailability := fun _ _ _ _ => []
      campsitesToDf := fun _ => []
      filterDateOverlap := fun x => x
      consolidateCampsites := fun x _ => x
      dfToCampsites := fun _ => [] }
    { campgrounds := [⟨1, "A", "RA", 1⟩]
      searchMonths := [1]
      campsites := none
      equipment := none
      mode := .category
      nights := 1
      campsite_metadata := none } (by decide)
  exact ⟨(h.1 rfl).2, h.2.2.1⟩


end Camply
